import Mathlib

/-!
AgentMeshCloud — verification of the request-dispatcher spec

Shallow embedding of the two client SDKs' request dispatchers and the
webhook-signature verifier:

* `AgentMeshClient._request` (src/ai-agent-mesh/sdks/python/src/agent_mesh/client.py)
  — typed-error classification, slash-normalized URL join, urllib3 retry config;
* `MeshOSPartnerSDK._request` (src/ai-agent-mesh-v6/partner_sdk/index.py)
  — naive URL concatenation, `raise_for_status`, every failure collapsed into a
  plain `Exception("API request failed: ...")`;
* `MeshOSPartnerSDK.verify_webhook_signature` — HMAC-SHA256 over the payload
  keyed by the secret, hex-encoded, compared with `hmac.compare_digest`.

Python values that the dispatchers consume (parsed JSON bodies, HTTP responses,
raised exceptions) are embedded as plain inductive data; machine words inside
SHA-256 are `Nat` reduced mod `2 ^ 32`.
-/

/-- A parsed JSON value, as returned by Python's `response.json()`. -/
inductive Json where
  | null
  | bool (b : Bool)
  | num (n : Int)
  | str (s : String)
  | arr (xs : List Json)
  | obj (fields : List (String × Json))

/-- The Python exception classes a dispatcher call can surface: the six SDK
error classes from exceptions.py, the built-in `Exception` used by the partner
SDK, and the built-ins raised by attribute/type misuse. -/
inductive ExcClass where
  | agentMeshError
  | authenticationError
  | rateLimitError
  | validationError
  | notFoundError
  | networkError
  | plainException
  | attributeError
  | typeError
deriving DecidableEq

/-- The response envelope a dispatcher classifies: status code, raw body text,
the outcome of `response.json()` (`none` when the body is unparseable, in which
case `jsonErrMsg` carries the decode-error message the json library raises —
library-determined, so carried as data), and the HTTP reason phrase used by
`raise_for_status`.  `response.content` is non-empty exactly when `text` is. -/
structure HTTPResponse where
  statusCode : Nat
  text : String
  jsonBody : Option Json
  reason : String
  jsonErrMsg : String

/-- What the transport layer hands the dispatcher: a final HTTP response, or a
`requests.RequestException` transport fault (DNS failure, refused connection,
timeout, exhausted retries) carrying its message. -/
inductive TransportOutcome where
  | response (r : HTTPResponse)
  | fault (msg : String)

/-- The observable outcome of a dispatcher call: a returned value (`some` parsed
JSON or Python `None`), or a raised exception with its class and message. -/
inductive PyResult where
  | ok (v : Option Json)
  | exc (cls : ExcClass) (msg : String)

/-- The exception class of a result, when it raised. -/
def excClassOf : PyResult → Option ExcClass
  | .ok _ => none
  | .exc c _ => some c

/-- The exception message of a result, when it raised. -/
def excMsgOf : PyResult → Option String
  | .ok _ => none
  | .exc _ m => some m

/-- Python `s.lstrip("/")`: drop every leading slash. -/
def lstripSlash (s : String) : String :=
  ⟨s.data.dropWhile (· = '/')⟩

/-- Python `s.rstrip("/")`: drop every trailing slash. -/
def rstripSlash (s : String) : String :=
  ⟨(s.data.reverse.dropWhile (· = '/')).reverse⟩

/-- URL join of `AgentMeshClient`: the base URL is right-stripped of slashes at
construction (`base_url.rstrip("/")`), and `_request` computes
`f"{self.base_url}/{endpoint.lstrip(CHR)}"` with the endpoint left-stripped. -/
def meshURL (baseUrl endpoint : String) : String :=
  rstripSlash baseUrl ++ "/" ++ lstripSlash endpoint

/-- URL join of `MeshOSPartnerSDK._request`: `f"{self.base_url}/{self.version}{path}"`
— plain concatenation, no slash normalization. -/
def partnerURL (baseUrl version path : String) : String :=
  baseUrl ++ "/" ++ version ++ path

/-- First binding of a key in a parsed JSON object, as Python `dict.get`. -/
def lookupField : List (String × Json) → String → Option Json
  | [], _ => none
  | (k, v) :: rest, key => if k = key then some v else lookupField rest key

/-- Python `str()` of a parsed JSON value, as interpolated by the dispatcher's
f-string.  Leaf renderings follow Python; container values are rendered
opaquely, as no classified message in the verified properties contains one. -/
def pyStr : Json → String
  | .null => "None"
  | .bool b => if b then "True" else "False"
  | .num n => toString n
  | .str s => s
  | .arr _ => "<list repr>"
  | .obj _ => "<dict repr>"

/-- The error-classification step of `AgentMeshClient._request` (client.py lines
94–110), applied to the final response.  Status 401/404/429 raise their typed
errors; other statuses ≥ 400 evaluate `response.json() if response.content else
\x7b\x7d` — a JSON-object body supplies an optional `message` field, an
unparseable body raises `requests.exceptions.JSONDecodeError` (a
`RequestException` since requests 2.27, and setup.py pins `requests>=2.31.0`)
which the outer handler wraps into `AgentMeshError("Request failed: ...")`, and
a parseable non-object body makes `error_data.get` raise an uncaught
`AttributeError`.  Statuses below 400 return the parsed body, or `None` when
the body is empty; an unparseable non-empty success body is wrapped like any
other `RequestException`. -/
def meshClassify (endpoint : String) (r : HTTPResponse) : PyResult :=
  if r.statusCode = 401 then
    .exc .authenticationError "Invalid API key"
  else if r.statusCode = 404 then
    .exc .notFoundError ("Resource not found: " ++ endpoint)
  else if r.statusCode = 429 then
    .exc .rateLimitError "Rate limit exceeded"
  else if r.statusCode ≥ 400 then
    if r.text = "" then
      .exc .agentMeshError ("API error: " ++ r.text)
    else
      match r.jsonBody with
      | none => .exc .agentMeshError ("Request failed: " ++ r.jsonErrMsg)
      | some (.obj fields) =>
          .exc .agentMeshError ("API error: " ++
            (match lookupField fields "message" with
             | some v => pyStr v
             | none => r.text))
      | some _ => .exc .attributeError "list object has no attribute get"
  else
    if r.text = "" then .ok none
    else
      match r.jsonBody with
      | none => .exc .agentMeshError ("Request failed: " ++ r.jsonErrMsg)
      | some j => .ok (some j)

/-- `AgentMeshClient._request` on a transport outcome: a response is classified;
a `RequestException` from the transport is wrapped into
`AgentMeshError(f"Request failed: ...")`. -/
def meshRequest (endpoint : String) (t : TransportOutcome) : PyResult :=
  match t with
  | .fault m => .exc .agentMeshError ("Request failed: " ++ m)
  | .response r => meshClassify endpoint r

/-- Modelled from the spec: the message of the `requests.HTTPError` that
`raise_for_status` raises — requests (library code, not under src/) formats
`"{code} Client Error: {reason} for url: {url}"` for 4xx and `Server Error`
for 5xx. -/
def raiseForStatusMsg (r : HTTPResponse) (url : String) : String :=
  if r.statusCode < 500 then
    toString r.statusCode ++ " Client Error: " ++ r.reason ++ " for url: " ++ url
  else
    toString r.statusCode ++ " Server Error: " ++ r.reason ++ " for url: " ++ url

/-- The classification step of `MeshOSPartnerSDK._request` (index.py lines
57–68) on the final response: `raise_for_status()` raises `HTTPError` for every
status ≥ 400, and `response.json()` raises `JSONDecodeError` on an unparseable
(e.g. empty) body; both are `RequestException`s, so the handler re-raises a
plain built-in `Exception(f"API request failed: ...")`.  A parseable body is
returned verbatim. -/
def partnerClassify (url : String) (r : HTTPResponse) : PyResult :=
  if r.statusCode ≥ 400 then
    .exc .plainException ("API request failed: " ++ raiseForStatusMsg r url)
  else
    match r.jsonBody with
    | none => .exc .plainException ("API request failed: " ++ r.jsonErrMsg)
    | some j => .ok (some j)

/-- `MeshOSPartnerSDK._request` on a transport outcome: a response is
classified; a transport-level `RequestException` is likewise collapsed into the
plain `Exception(f"API request failed: ...")`. -/
def partnerRequest (url : String) (t : TransportOutcome) : PyResult :=
  match t with
  | .fault m => .exc .plainException ("API request failed: " ++ m)
  | .response r => partnerClassify url r

/-! ## Transport adapter retry model -/

/-- A urllib3-style retry policy, as configured at client construction. -/
structure RetryPolicy where
  total : Nat
  backoffFactor : Nat
  statusForcelist : List Nat
  allowedMethods : List String

/-- The retry policy `AgentMeshClient.__init__` installs (client.py lines
48–53): `Retry(total=max_retries, backoff_factor=1,
status_forcelist=[429, 500, 502, 503, 504],
allowed_methods=["GET", "POST", "PUT", "PATCH", "DELETE"])`. -/
def meshRetryPolicy (maxRetries : Nat) : RetryPolicy :=
  ⟨maxRetries, 1, [429, 500, 502, 503, 504], ["GET", "POST", "PUT", "PATCH", "DELETE"]⟩

/-- `MeshOSPartnerSDK` issues `requests.request` directly: the default adapter
performs no status retries (nothing retryable, zero extra attempts). -/
def partnerRetryPolicy : RetryPolicy :=
  ⟨0, 0, [], []⟩

/-- A response status triggers a retry when both the method and the status are
in the configured sets. -/
def isRetryable (p : RetryPolicy) (method : String) (status : Nat) : Bool :=
  p.allowedMethods.contains method && p.statusForcelist.contains status

/-- Modelled from the spec: the transport adapter's send loop (the urllib3
`Retry` engine is library code, not under src/).  `statuses i` is the status
the `i`-th attempt would observe; the fuel is the remaining retry budget.
Returns the number of attempts made, the backoff sleeps taken between
consecutive attempts (`backoff_factor * 2 ^ (n - 1)` seconds before the `n`-th
retry, never before the first attempt), and whether the budget was exhausted
with the last status still retryable — in which case the engine raises a
terminal transport fault (`MaxRetryError`, surfacing as a `RequestException`)
instead of retrying further. -/
def sendLoop (p : RetryPolicy) (method : String) (statuses : Nat → Nat) :
    Nat → Nat → Nat × List Nat × Bool
  | 0, i => (1, [], isRetryable p method (statuses i))
  | fuel + 1, i =>
    if isRetryable p method (statuses i) then
      let rest := sendLoop p method statuses fuel (i + 1)
      (rest.1 + 1, p.backoffFactor * 2 ^ i :: rest.2.1, rest.2.2)
    else
      (1, [], false)

/-- One logical transport call under a retry policy. -/
def send (p : RetryPolicy) (method : String) (statuses : Nat → Nat) :
    Nat × List Nat × Bool :=
  sendLoop p method statuses p.total 0

/-! ## HMAC-SHA256 and the webhook signature verifier

Modelled from the spec: `hashlib.sha256` and `hmac` are standard-library code,
not under src/; SHA-256 (FIPS 180-4) and HMAC (RFC 2104) are embedded here over
byte lists, with 32-bit words as `Nat` reduced mod `2 ^ 32`. -/

/-- Addition mod `2 ^ 32`. -/
def add32 (a b : Nat) : Nat := (a + b) % 2 ^ 32

/-- Right rotation of a 32-bit word. -/
def rotr32 (n x : Nat) : Nat :=
  ((x >>> n) ||| (x <<< (32 - n))) % 2 ^ 32

/-- SHA-256 `Ch(x, y, z)`; `¬x` on 32 bits is xor with the all-ones word. -/
def shaCh (x y z : Nat) : Nat := (x &&& y) ^^^ ((x ^^^ (2 ^ 32 - 1)) &&& z)

/-- SHA-256 `Maj(x, y, z)`. -/
def shaMaj (x y z : Nat) : Nat := (x &&& y) ^^^ (x &&& z) ^^^ (y &&& z)

/-- SHA-256 `Σ0`. -/
def bigSigma0 (x : Nat) : Nat := rotr32 2 x ^^^ rotr32 13 x ^^^ rotr32 22 x

/-- SHA-256 `Σ1`. -/
def bigSigma1 (x : Nat) : Nat := rotr32 6 x ^^^ rotr32 11 x ^^^ rotr32 25 x

/-- SHA-256 `σ0`. -/
def smallSigma0 (x : Nat) : Nat := rotr32 7 x ^^^ rotr32 18 x ^^^ (x >>> 3)

/-- SHA-256 `σ1`. -/
def smallSigma1 (x : Nat) : Nat := rotr32 17 x ^^^ rotr32 19 x ^^^ (x >>> 10)

/-- The sixty-four FIPS 180-4 round constants of SHA-256 (the fractional parts
of the cube roots of the first sixty-four primes), written in decimal. -/
def sha256K : List Nat :=
  [1116352408, 1899447441, 3049323471, 3921009573, 961987163,
   1508970993, 2453635748, 2870763221, 3624381080, 310598401,
   607225278, 1426881987, 1925078388, 2162078206, 2614888103,
   3248222580, 3835390401, 4022224774, 264347078, 604807628,
   770255983, 1249150122, 1555081692, 1996064986, 2554220882,
   2821834349, 2952996808, 3210313671, 3336571891, 3584528711,
   113926993, 338241895, 666307205, 773529912, 1294757372,
   1396182291, 1695183700, 1986661051, 2177026350, 2456956037,
   2730485921, 2820302411, 3259730800, 3345764771, 3516065817,
   3600352804, 4094571909, 275423344, 430227734, 506948616,
   659060556, 883997877, 958139571, 1322822218, 1537002063,
   1747873779, 1955562222, 2024104815, 2227730452, 2361852424,
   2428436474, 2756734187, 3204031479, 3329325298]

/-- The initial SHA-256 hash state of FIPS 180-4 (the fractional parts of the
square roots of the first eight primes), written in decimal. -/
def sha256H0 : List Nat :=
  [1779033703, 3144134277, 1013904242, 2773480762,
   1359893119, 2600822924, 528734635, 1541459225]

/-- `k` big-endian bytes of `n` (most significant first). -/
def beBytes : Nat → Nat → List Nat
  | 0, _ => []
  | k + 1, n => beBytes k (n / 256) ++ [n % 256]

/-- FIPS 180-4 padding: append `0x80`, zero bytes to 56 mod 64, then the
bit length as 8 big-endian bytes. -/
def padMessage (m : List Nat) : List Nat :=
  let zeros := (64 - (m.length + 9) % 64) % 64
  m ++ [0x80] ++ List.replicate zeros 0 ++ beBytes 8 (8 * m.length)

/-- Group bytes into big-endian 32-bit words. -/
def toWords : List Nat → List Nat
  | a :: b :: c :: d :: rest => (((a * 256 + b) * 256 + c) * 256 + d) :: toWords rest
  | _ => []

/-- Extend a message schedule by its next word
`σ1(W[t−2]) + W[t−7] + σ0(W[t−15]) + W[t−16]`. -/
def scheduleStep (w : List Nat) : List Nat :=
  let n := w.length
  w ++ [add32 (add32 (smallSigma1 (w.getD (n - 2) 0)) (w.getD (n - 7) 0))
              (add32 (smallSigma0 (w.getD (n - 15) 0)) (w.getD (n - 16) 0))]

/-- The 64-word message schedule of one block. -/
def schedule (w16 : List Nat) : List Nat :=
  (List.range 48).foldl (fun w _ => scheduleStep w) w16

/-- One SHA-256 round on the working state `[a, b, c, d, e, f, g, h]`. -/
def sha256Round (s : List Nat) (kw : Nat × Nat) : List Nat :=
  match s with
  | [a, b, c, d, e, f, g, h] =>
    let t1 := add32 h (add32 (bigSigma1 e) (add32 (shaCh e f g) (add32 kw.1 kw.2)))
    let t2 := add32 (bigSigma0 a) (shaMaj a b c)
    [add32 t1 t2, a, b, c, add32 d t1, e, f, g]
  | s => s

/-- The SHA-256 compression function on one 64-byte block. -/
def sha256Compress (H : List Nat) (block : List Nat) : List Nat :=
  let final := (sha256K.zip (schedule (toWords block))).foldl sha256Round H
  List.zipWith add32 H final

/-- Split into 64-byte chunks, with explicit fuel for structural recursion. -/
def chunk64Fuel : Nat → List Nat → List (List Nat)
  | 0, _ => []
  | _, [] => []
  | fuel + 1, l => l.take 64 :: chunk64Fuel fuel (l.drop 64)

/-- Split a byte list into 64-byte blocks. -/
def chunk64 (l : List Nat) : List (List Nat) := chunk64Fuel l.length l

/-- SHA-256 of a byte list, as its 32 digest bytes. -/
def sha256 (m : List Nat) : List Nat :=
  (((chunk64 (padMessage m)).foldl sha256Compress sha256H0).map (beBytes 4)).flatten

/-- RFC 2104 key normalization for a 64-byte block: hash keys longer than the
block, then right-pad with zeros. -/
def hmacNormKey (key : List Nat) : List Nat :=
  let k := if key.length > 64 then sha256 key else key
  k ++ List.replicate (64 - k.length) 0

/-- HMAC-SHA256 digest bytes: `H((K ⊕ opad) ‖ H((K ⊕ ipad) ‖ msg))`. -/
def hmacSha256 (key msg : List Nat) : List Nat :=
  let k := hmacNormKey key
  sha256 ((k.map (fun b => b ^^^ 0x5c)) ++ sha256 ((k.map (fun b => b ^^^ 0x36)) ++ msg))

/-- The lowercase hex digit of a nibble, per the hexdigest alphabet: code
points 48-57 carry values below ten and code points 97-102 the rest (values
above fifteen, which never arise from the nibbles of a byte, are clamped). -/
def hexDigitChar (n : Nat) : Char :=
  if n < 10 then Char.ofNat (48 + n) else Char.ofNat (87 + min n 15)

/-- Lowercase hex characters of a byte list, two digits per byte. -/
def hexChars (bs : List Nat) : List Char :=
  (bs.map (fun b => [hexDigitChar (b / 16), hexDigitChar (b % 16)])).flatten

/-- Lowercase hex encoding of a byte list — Python's `.hexdigest()`. -/
def hexOfBytes (bs : List Nat) : String := ⟨hexChars bs⟩

/-- Python `str.encode()`: the UTF-8 bytes of one code point. -/
def utf8EncodeChar (c : Nat) : List Nat :=
  if c < 0x80 then [c]
  else if c < 0x800 then
    [0xc0 ||| (c >>> 6), 0x80 ||| (c &&& 0x3f)]
  else if c < 0x10000 then
    [0xe0 ||| (c >>> 12), 0x80 ||| ((c >>> 6) &&& 0x3f), 0x80 ||| (c &&& 0x3f)]
  else
    [0xf0 ||| (c >>> 18), 0x80 ||| ((c >>> 12) &&& 0x3f),
     0x80 ||| ((c >>> 6) &&& 0x3f), 0x80 ||| (c &&& 0x3f)]

/-- Python `str.encode()`: UTF-8 bytes of a string. -/
def strEncode (s : String) : List Nat :=
  (s.data.map (fun c => utf8EncodeChar c.toNat)).flatten

/-- `hmac.new(secret.encode(), payload.encode(), hashlib.sha256).hexdigest()`
as computed by `verify_webhook_signature`. -/
def hmacSha256Hex (key msg : List Nat) : String := hexOfBytes (hmacSha256 key msg)

/-- The code points of a string — for ASCII strings these are its bytes, the
units `hmac.compare_digest` compares. -/
def strCodes (s : String) : List Nat := s.data.map Char.toNat

/-- Every code point is ASCII — the condition under which `hmac.compare_digest`
accepts `str` arguments instead of raising `TypeError`. -/
def isAsciiStr (s : String) : Bool := s.data.all (fun c => c.toNat < 128)

/-- Modelled from the spec: the accumulator loop of `hmac.compare_digest`
(CPython C code, not under src/) — it walks every zipped pair regardless of
content, OR-ing the XOR of each pair into a difference mask, and counts its
iterations so the verified properties can speak about its running time. -/
def ctFold : List (Nat × Nat) → Nat → Nat → Nat × Nat
  | [], acc, steps => (acc, steps)
  | p :: rest, acc, steps => ctFold rest (acc ||| (p.1 ^^^ p.2)) (steps + 1)

/-- Modelled from the spec: `hmac.compare_digest` on two ASCII strings — equal
iff the lengths match and the accumulated difference mask is zero; paired with
the number of loop iterations taken. -/
def compare_digest (a b : String) : Bool × Nat :=
  let r := ctFold ((strCodes a).zip (strCodes b)) 0 0
  ((a.data.length == b.data.length) && (r.1 == 0), r.2)

/-- A Python value supplied as the webhook payload: the spec's contract admits
`bytes` as well as `str`. -/
inductive PyVal where
  | str (s : String)
  | bytes (bs : List Nat)

/-- The outcome of `verify_webhook_signature`: a returned boolean, or a raised
exception. -/
inductive PyBoolResult where
  | ret (b : Bool)
  | exc (cls : ExcClass) (msg : String)
deriving DecidableEq

/-- Whether a verification outcome raised instead of returning. -/
def verifyRaised : PyBoolResult → Bool
  | .ret _ => false
  | .exc _ _ => true

/-- `MeshOSPartnerSDK.verify_webhook_signature` (index.py lines 236–254):
`payload.encode()` raises `AttributeError` when the payload is `bytes` (bytes
has no `encode`); otherwise the expected digest is
`hmac.new(secret.encode(), payload.encode(), hashlib.sha256).hexdigest()` and
`hmac.compare_digest(signature, expected_signature)` compares — raising
`TypeError` unless both strings are ASCII, and returning the comparison
otherwise. -/
def verify_webhook_signature (payload : PyVal) (signature secret : String) :
    PyBoolResult :=
  match payload with
  | .bytes _ => .exc .attributeError "bytes object has no attribute encode"
  | .str p =>
    let expected := hmacSha256Hex (strEncode secret) (strEncode p)
    if isAsciiStr signature && isAsciiStr expected then
      .ret (compare_digest signature expected).1
    else
      .exc .typeError "comparing strings with non-ASCII characters is not supported"

/-! ## Helper lemmas -/

/-- A bitwise OR of naturals is zero exactly when both sides are. -/
theorem nat_lor_eq_zero_iff (a b : Nat) : a ||| b = 0 ↔ a = 0 ∧ b = 0 := by
  constructor
  · intro h
    constructor
    · apply Nat.zero_of_testBit_eq_false
      intro i
      have hbit := congrArg (fun x => Nat.testBit x i) h
      simp only [Nat.testBit_lor, Nat.zero_testBit, Bool.or_eq_false_iff] at hbit
      exact hbit.1
    · apply Nat.zero_of_testBit_eq_false
      intro i
      have hbit := congrArg (fun x => Nat.testBit x i) h
      simp only [Nat.testBit_lor, Nat.zero_testBit, Bool.or_eq_false_iff] at hbit
      exact hbit.2
  · rintro ⟨rfl, rfl⟩
    rfl

/-- Characters with equal code points are equal. -/
theorem char_toNat_inj {a b : Char} (h : a.toNat = b.toNat) : a = b := by
  apply Char.eq_of_val_eq
  apply UInt32.eq_of_toBitVec_eq
  apply BitVec.eq_of_toNat_eq
  exact h

/-- The comparison loop takes exactly one iteration per zipped pair. -/
theorem ctFold_steps (ps : List (Nat × Nat)) (acc s : Nat) :
    (ctFold ps acc s).2 = s + ps.length := by
  induction ps generalizing acc s with
  | nil => simp [ctFold]
  | cons p rest ih =>
    simp [ctFold, ih]
    omega

/-- The accumulated difference mask is zero exactly when it started at zero and
every zipped pair agrees. -/
theorem ctFold_fst_eq_zero (ps : List (Nat × Nat)) (acc s : Nat) :
    (ctFold ps acc s).1 = 0 ↔ acc = 0 ∧ ∀ p ∈ ps, p.1 = p.2 := by
  induction ps generalizing acc s with
  | nil => simp [ctFold]
  | cons p rest ih =>
    simp only [ctFold, ih, nat_lor_eq_zero_iff, Nat.xor_eq_zero, List.mem_cons]
    constructor
    · rintro ⟨⟨h0, hp⟩, hrest⟩
      exact ⟨h0, fun q hq => hq.elim (fun he => he ▸ hp) (hrest q)⟩
    · rintro ⟨h0, hall⟩
      exact ⟨⟨h0, hall p (Or.inl rfl)⟩, fun q hq => hall q (Or.inr hq)⟩

/-- Two lists are equal exactly when their lengths match and every zipped pair
agrees. -/
theorem zip_agree_iff_eq (l1 l2 : List Nat) :
    (l1.length = l2.length ∧ ∀ p ∈ l1.zip l2, p.1 = p.2) ↔ l1 = l2 := by
  induction l1 generalizing l2 with
  | nil =>
    cases l2 with
    | nil => simp
    | cons b bs => simp
  | cons a as ih =>
    cases l2 with
    | nil => simp
    | cons b bs =>
      simp only [List.length_cons, List.zip_cons_cons, List.mem_cons, List.cons.injEq]
      constructor
      · rintro ⟨hl, hall⟩
        have hab : a = b := hall (a, b) (Or.inl rfl)
        have : as = bs := (ih bs).mp
          ⟨by omega, fun p hp => hall p (Or.inr hp)⟩
        exact ⟨hab, this⟩
      · rintro ⟨rfl, rfl⟩
        refine ⟨rfl, fun p hp => ?_⟩
        have := ((ih as).mpr rfl).2
        rcases hp with he | hp
        · rw [he]
        · exact this p hp

/-- Strings with equal code-point sequences are equal. -/
theorem strCodes_inj {a b : String} (h : strCodes a = strCodes b) : a = b := by
  apply String.ext
  have : ∀ l1 l2 : List Char, l1.map Char.toNat = l2.map Char.toNat → l1 = l2 := by
    intro l1
    induction l1 with
    | nil => intro l2 h2; cases l2 <;> simp_all
    | cons c cs ih =>
      intro l2 h2
      cases l2 with
      | nil => simp at h2
      | cons d ds =>
        simp only [List.map_cons, List.cons.injEq] at h2
        exact List.cons_eq_cons.mpr ⟨char_toNat_inj h2.1, ih ds h2.2⟩
  exact this a.data b.data h

/-- `compare_digest` returns true exactly on equal strings. -/
theorem compare_digest_fst_iff (a b : String) :
    (compare_digest a b).1 = true ↔ a = b := by
  simp only [compare_digest, Bool.and_eq_true, beq_iff_eq, ctFold_fst_eq_zero]
  constructor
  · rintro ⟨hl, -, hall⟩
    apply strCodes_inj
    apply (zip_agree_iff_eq (strCodes a) (strCodes b)).mp
    exact ⟨by simpa [strCodes] using hl, hall⟩
  · rintro rfl
    refine ⟨rfl, ?_, ?_⟩
    · trivial
    · exact ((zip_agree_iff_eq (strCodes a) (strCodes a)).mpr rfl).2

/-- The comparison loop's iteration count is the length of the shorter input. -/
theorem compare_digest_steps (a b : String) :
    (compare_digest a b).2 = min a.data.length b.data.length := by
  simp [compare_digest, ctFold_steps, strCodes]

/-- `Char.ofNat` of an ASCII code point has that code point. -/
theorem char_ofNat_toNat (n : Nat) (h : n < 128) : (Char.ofNat n).toNat = n := by
  have hv : n < 55296 ∨ 57343 < n ∧ n < 1114112 := Or.inl (by omega)
  simp only [Char.ofNat, hv, dite_true, dif_pos]
  simp [Char.ofNatAux, Char.toNat, UInt32.toNat, BitVec.toNat_ofNatLt]

/-- Every hex digit is an ASCII character. -/
theorem hexDigitChar_ascii (n : Nat) : (hexDigitChar n).toNat < 128 := by
  unfold hexDigitChar
  split
  · rw [char_ofNat_toNat (48 + n) (by omega)]
    omega
  · have hm : min n 15 ≤ 15 := Nat.min_le_right n 15
    rw [char_ofNat_toNat (87 + min n 15) (by omega)]
    omega

/-- A hex encoding is an all-ASCII string. -/
theorem isAsciiStr_hexOfBytes (bs : List Nat) : isAsciiStr (hexOfBytes bs) = true := by
  simp only [isAsciiStr, hexOfBytes, List.all_eq_true]
  intro c hc
  simp only [hexChars, List.mem_flatten, List.mem_map] at hc
  obtain ⟨l, ⟨x, -, rfl⟩, hcl⟩ := hc
  simp only [List.mem_cons, List.mem_singleton] at hcl
  rcases hcl with rfl | rfl | h
  · simpa using hexDigitChar_ascii (x / 16)
  · simpa using hexDigitChar_ascii (x % 16)
  · cases h

/-- The send loop never makes more attempts than one plus its retry budget. -/
theorem sendLoop_attempts_le (p : RetryPolicy) (method : String) (statuses : Nat → Nat) :
    ∀ fuel i, (sendLoop p method statuses fuel i).1 ≤ fuel + 1 := by
  intro fuel
  induction fuel with
  | zero => intro i; simp [sendLoop]
  | succ n ih =>
    intro i
    simp only [sendLoop]
    split
    · have := ih (i + 1)
      omega
    · omega

/-- When every status the transport observes is retryable, the send loop uses
its whole budget: one attempt per unit of fuel plus the final one, a backoff of
`backoffFactor * 2 ^ (i + j)` before each retry, and exhaustion at the end. -/
theorem sendLoop_all_retryable (p : RetryPolicy) (method : String)
    (statuses : Nat → Nat)
    (h : ∀ i, isRetryable p method (statuses i) = true) :
    ∀ fuel i, sendLoop p method statuses fuel i =
      (fuel + 1, (List.range fuel).map (fun j => p.backoffFactor * 2 ^ (i + j)), true) := by
  intro fuel
  induction fuel with
  | zero => intro i; simp [sendLoop, h i]
  | succ n ih =>
    intro i
    simp only [sendLoop, h i, if_true, ih (i + 1)]
    refine Prod.ext rfl (Prod.ext ?_ rfl)
    simp only [List.range_succ_eq_map, List.map_cons, List.map_map]
    refine congrArg₂ List.cons (by ring_nf) ?_
    apply List.map_congr_left
    intro j hj
    simp only [Function.comp_apply, Nat.succ_eq_add_one]
    ring_nf

/-- Right-stripping slashes ignores a trailing slash. -/
theorem rstripSlash_append_slash (b : String) :
    rstripSlash (b ++ "/") = rstripSlash b := by
  simp [rstripSlash, String.data_append, List.reverse_append, List.dropWhile]

/-- Left-stripping slashes ignores a leading slash. -/
theorem lstripSlash_slash_append (p : String) :
    lstripSlash ("/" ++ p) = lstripSlash p := by
  simp [lstripSlash, String.data_append, List.dropWhile]

/-! ## Claim theorems -/

/-- Claim C1 counterexample: a final 401 response through
`MeshOSPartnerSDK._request` raises the plain built-in `Exception`, not an
Authentication-kind typed error — so the claim, which quantifies over every
dispatcher in the repository, fails on the partner SDK. -/
theorem claim1_counterexample :
    excClassOf (partnerRequest "https://partner-api.meshos.io/v1/tenants"
      (.response ⟨401, "", none, "Unauthorized", "Expecting value: line 1 column 1 (char 0)"⟩)) =
      some ExcClass.plainException ∧
    ExcClass.plainException ≠ ExcClass.authenticationError := by
  exact ⟨rfl, by decide⟩

/-- Claim C1 (amended): on a final 401 response, `AgentMeshClient._request`
raises `AuthenticationError("Invalid API key")` regardless of body content,
while `MeshOSPartnerSDK._request` raises the plain built-in
`Exception("API request failed: ...")` wrapping the `raise_for_status` message. -/
theorem claim1_amended (endpoint url : String) (r : HTTPResponse)
    (h : r.statusCode = 401) :
    meshRequest endpoint (.response r) =
      .exc .authenticationError "Invalid API key" ∧
    partnerRequest url (.response r) =
      .exc .plainException ("API request failed: " ++ raiseForStatusMsg r url) := by
  constructor
  · simp [meshRequest, meshClassify, h]
  · simp [partnerRequest, partnerClassify, h]

/-- Claim C1 witness: the amended claim at a concrete 401 response whose body
even carries a JSON `message`. -/
theorem claim1_witness :
    (HTTPResponse.mk 401 "denied" (some (.obj [("message", .str "go away")]))
        "Unauthorized" "e").statusCode = 401 ∧
    (meshRequest "/agents"
        (.response ⟨401, "denied", some (.obj [("message", .str "go away")]),
          "Unauthorized", "e"⟩) =
      .exc .authenticationError "Invalid API key" ∧
    partnerRequest "u"
        (.response ⟨401, "denied", some (.obj [("message", .str "go away")]),
          "Unauthorized", "e"⟩) =
      .exc .plainException
        ("API request failed: " ++
          raiseForStatusMsg
            ⟨401, "denied", some (.obj [("message", .str "go away")]),
              "Unauthorized", "e"⟩ "u")) :=
  ⟨rfl, claim1_amended "/agents" "u" _ rfl⟩

/-- Claim C2: with the retry policy `AgentMeshClient` configures
(`total=max_retries`, `backoff_factor=1`, forcelist 429/500/502/503/504, all
methods allowed), a run whose every observed status is retryable makes exactly
`1 + total_retries` attempts, with strictly increasing backoff sleeps between
consecutive attempts (none before the first) and terminal exhaustion; no run
ever exceeds `1 + total_retries` attempts; the partner SDK's default transport
makes exactly one attempt. -/
theorem claim2_retry_bounded (n : Nat) (method : String) (statuses : Nat → Nat)
    (hm : (meshRetryPolicy n).allowedMethods.contains method = true)
    (hs : ∀ i, (meshRetryPolicy n).statusForcelist.contains (statuses i) = true) :
    (send (meshRetryPolicy n) method statuses).1 = 1 + n ∧
    (send (meshRetryPolicy n) method statuses).2.1 =
      (List.range n).map (fun j => 2 ^ j) ∧
    List.Pairwise (· < ·) (send (meshRetryPolicy n) method statuses).2.1 ∧
    (send (meshRetryPolicy n) method statuses).2.1.length =
      (send (meshRetryPolicy n) method statuses).1 - 1 ∧
    (send (meshRetryPolicy n) method statuses).2.2 = true ∧
    (∀ other : Nat → Nat, (send (meshRetryPolicy n) method other).1 ≤ 1 + n) ∧
    (send partnerRetryPolicy method statuses).1 = 1 := by
  have hall : ∀ i, isRetryable (meshRetryPolicy n) method (statuses i) = true := by
    intro i
    simp only [isRetryable, hm, hs i, Bool.and_self]
  have hmain := sendLoop_all_retryable (meshRetryPolicy n) method statuses hall n 0
  have hsend : send (meshRetryPolicy n) method statuses =
      (n + 1, (List.range n).map (fun j => 2 ^ j), true) := by
    show sendLoop (meshRetryPolicy n) method statuses n 0 = _
    rw [hmain]
    refine Prod.ext rfl (Prod.ext ?_ rfl)
    apply List.map_congr_left
    intro j hj
    show 1 * 2 ^ (0 + j) = 2 ^ j
    simp
  refine ⟨by rw [hsend]; omega, by rw [hsend], ?_, ?_, by rw [hsend], ?_, rfl⟩
  · rw [hsend]
    exact (List.pairwise_lt_range n).map _
      (fun a b hab => Nat.pow_lt_pow_right (by norm_num) hab)
  · rw [hsend]
    simp
  · intro other
    have := sendLoop_attempts_le (meshRetryPolicy n) method other n 0
    show (sendLoop (meshRetryPolicy n) method other n 0).1 ≤ 1 + n
    omega

/-- Claim C2 witness: three configured retries against a permanently-500
endpoint on GET make four attempts with sleeps 1, 2, 4. -/
theorem claim2_witness :
    (send (meshRetryPolicy 3) "GET" (fun _ => 500)).1 = 1 + 3 ∧
    (send (meshRetryPolicy 3) "GET" (fun _ => 500)).2.1 =
      (List.range 3).map (fun j => 2 ^ j) :=
  ⟨(claim2_retry_bounded 3 "GET" (fun _ => 500) (by decide)
      (fun i => by
        show (meshRetryPolicy 3).statusForcelist.contains 500 = true
        decide)).1,
   (claim2_retry_bounded 3 "GET" (fun _ => 500) (by decide)
      (fun i => by
        show (meshRetryPolicy 3).statusForcelist.contains 500 = true
        decide)).2.1⟩

/-- Claim C3 counterexample: the partner SDK's URL join does not normalize
slashes — a trailing-slash base URL produces a double slash and so differs
from the normalized form, refuting the claim for that dispatcher. -/
theorem claim3_counterexample :
    partnerURL "https://partner-api.meshos.io/" "v1" "/tenants" =
      "https://partner-api.meshos.io//v1/tenants" ∧
    partnerURL "https://partner-api.meshos.io/" "v1" "/tenants" ≠
      partnerURL "https://partner-api.meshos.io" "v1" "/tenants" := by
  exact ⟨rfl, by decide⟩

/-- Claim C3 (amended): `AgentMeshClient`'s join yields exactly
`https://api.example.com/v3/agents/123` on the spec's example and is invariant
under a trailing slash on the base and a leading slash on the path;
`MeshOSPartnerSDK` concatenates without normalization, so its default
(no-trailing-slash) base with a leading-slash path is joined correctly but a
trailing-slash base produces a double slash at the seam. -/
theorem claim3_amended (b p : String) :
    meshURL "https://api.example.com/v3" "/agents/123" =
      "https://api.example.com/v3/agents/123" ∧
    meshURL (b ++ "/") p = meshURL b p ∧
    meshURL b ("/" ++ p) = meshURL b p ∧
    partnerURL "https://partner-api.meshos.io" "v1" "/tenants" =
      "https://partner-api.meshos.io/v1/tenants" ∧
    partnerURL (b ++ "/") "v1" p = (b ++ "//") ++ "v1" ++ p := by
  refine ⟨by decide, ?_, ?_, rfl, ?_⟩
  · simp [meshURL, rstripSlash_append_slash]
  · simp [meshURL, lstripSlash_slash_append]
  · simp [partnerURL, String.append_assoc]

/-- Claim C10: every failing `MeshOSPartnerSDK._request` call — any response
with status ≥ 400 (via `raise_for_status`), any unparseable success body, and
any transport-level fault — raises the one plain built-in `Exception` class
with a message starting `"API request failed: "`, so callers cannot
distinguish authentication, not-found, rate-limit, or network failures by
error kind. -/
theorem claim10_partner_collapses (url : String) (t : TransportOutcome)
    (c : ExcClass) (m : String)
    (h : partnerRequest url t = .exc c m) :
    c = .plainException ∧ ∃ rest, m = "API request failed: " ++ rest := by
  cases t with
  | fault msg =>
    simp only [partnerRequest, PyResult.exc.injEq] at h
    exact ⟨h.1.symm, msg, h.2.symm⟩
  | response r =>
    simp only [partnerRequest, partnerClassify] at h
    by_cases h4 : r.statusCode ≥ 400
    · rw [if_pos h4] at h
      simp only [PyResult.exc.injEq] at h
      exact ⟨h.1.symm, raiseForStatusMsg r url, h.2.symm⟩
    · rw [if_neg h4] at h
      cases hj : r.jsonBody with
      | none =>
        rw [hj] at h
        simp only [PyResult.exc.injEq] at h
        exact ⟨h.1.symm, r.jsonErrMsg, h.2.symm⟩
      | some j =>
        rw [hj] at h
        cases h

/-- Claim C10 witness: a concrete transport fault surfaces as the plain
exception with the collapsed message. -/
theorem claim10_witness :
    ExcClass.plainException = ExcClass.plainException ∧
    ∃ rest, "API request failed: connection refused" = "API request failed: " ++ rest :=
  claim10_partner_collapses "u" (.fault "connection refused") .plainException
    "API request failed: connection refused" rfl

/-- Claim C5 counterexample: a 200 response with an empty body through
`MeshOSPartnerSDK._request` raises the wrapped JSON-decode exception instead
of returning a null/empty result, refuting the claim for that dispatcher. -/
theorem claim5_counterexample :
    partnerRequest "u"
      (.response ⟨200, "", none, "OK", "Expecting value: line 1 column 1 (char 0)"⟩) =
      .exc .plainException "API request failed: Expecting value: line 1 column 1 (char 0)" ∧
    excClassOf (partnerRequest "u"
      (.response ⟨200, "", none, "OK", "Expecting value: line 1 column 1 (char 0)"⟩)) ≠
      none := by
  exact ⟨rfl, by decide⟩

/-- Claim C5 (amended): for a final status in [200, 400),
`AgentMeshClient._request` returns `None` on an empty body and the parsed JSON
verbatim (any JSON kind, bare arrays included) on a non-empty parseable body;
`MeshOSPartnerSDK._request` returns parseable bodies verbatim but raises
`Exception("API request failed: ...")` on an empty or otherwise unparseable
success body. -/
theorem claim5_amended (endpoint url : String) (r : HTTPResponse) (j : Json)
    (h200 : 200 ≤ r.statusCode) (h400 : r.statusCode < 400) :
    (r.text = "" → meshRequest endpoint (.response r) = .ok none) ∧
    (r.text ≠ "" → r.jsonBody = some j →
      meshRequest endpoint (.response r) = .ok (some j)) ∧
    (r.jsonBody = some j → partnerRequest url (.response r) = .ok (some j)) ∧
    (r.jsonBody = none → partnerRequest url (.response r) =
      .exc .plainException ("API request failed: " ++ r.jsonErrMsg)) := by
  have h1 : r.statusCode ≠ 401 := by omega
  have h2 : r.statusCode ≠ 404 := by omega
  have h3 : r.statusCode ≠ 429 := by omega
  have h4 : ¬ r.statusCode ≥ 400 := by omega
  refine ⟨?_, ?_, ?_, ?_⟩
  · intro ht
    simp [meshRequest, meshClassify, h1, h2, h3, h4, ht]
  · intro ht hj
    simp [meshRequest, meshClassify, h1, h2, h3, h4, ht, hj]
  · intro hj
    simp [partnerRequest, partnerClassify, h4, hj]
  · intro hj
    simp [partnerRequest, partnerClassify, h4, hj]

/-- Claim C5 witness: the amended claim at a concrete 200 response carrying a
bare JSON array body. -/
theorem claim5_witness :
    200 ≤ (HTTPResponse.mk 200 "[1]" (some (.arr [.num 1])) "OK" "e").statusCode ∧
    (HTTPResponse.mk 200 "[1]" (some (.arr [.num 1])) "OK" "e").statusCode < 400 ∧
    (((HTTPResponse.mk 200 "[1]" (some (.arr [.num 1])) "OK" "e").text = "" →
      meshRequest "/agents" (.response ⟨200, "[1]", some (.arr [.num 1]), "OK", "e"⟩) =
        .ok none) ∧
    ((HTTPResponse.mk 200 "[1]" (some (.arr [.num 1])) "OK" "e").text ≠ "" →
      (HTTPResponse.mk 200 "[1]" (some (.arr [.num 1])) "OK" "e").jsonBody =
        some (.arr [.num 1]) →
      meshRequest "/agents" (.response ⟨200, "[1]", some (.arr [.num 1]), "OK", "e"⟩) =
        .ok (some (.arr [.num 1]))) ∧
    ((HTTPResponse.mk 200 "[1]" (some (.arr [.num 1])) "OK" "e").jsonBody =
        some (.arr [.num 1]) →
      partnerRequest "u" (.response ⟨200, "[1]", some (.arr [.num 1]), "OK", "e"⟩) =
        .ok (some (.arr [.num 1]))) ∧
    ((HTTPResponse.mk 200 "[1]" (some (.arr [.num 1])) "OK" "e").jsonBody = none →
      partnerRequest "u" (.response ⟨200, "[1]", some (.arr [.num 1]), "OK", "e"⟩) =
        .exc .plainException ("API request failed: " ++
          (HTTPResponse.mk 200 "[1]" (some (.arr [.num 1])) "OK" "e").jsonErrMsg))) :=
  ⟨by decide, by decide, claim5_amended "/agents" "u" _ (.arr [.num 1]) (by decide) (by decide)⟩

/-- Claim C6 counterexample: a 400 response with the non-JSON body `oops`
makes `response.json()` raise inside the classifier; the outer handler wraps
it into `AgentMeshError("Request failed: <decode error>")` — a Generic error,
but its message is the decode failure, not the raw response text the claim
promises. -/
theorem claim6_counterexample :
    meshRequest "/agents"
      (.response ⟨400, "oops", none, "Bad Request",
        "Expecting value: line 1 column 1 (char 0)"⟩) =
      .exc .agentMeshError "Request failed: Expecting value: line 1 column 1 (char 0)" ∧
    excMsgOf (meshRequest "/agents"
      (.response ⟨400, "oops", none, "Bad Request",
        "Expecting value: line 1 column 1 (char 0)"⟩)) ≠
      some ("API error: " ++ "oops") := by
  exact ⟨rfl, by decide⟩

/-- Claim C6 (amended): for a final status ≥ 400 outside 401/404/429,
`AgentMeshClient._request` raises a Generic `AgentMeshError` whose message
comes from the `message` field when the body parses to a JSON object carrying
one, and from the raw response text when the body is empty or parses to an
object without one; a non-JSON body does not use the raw text — the decode
failure is wrapped as `AgentMeshError("Request failed: ...")` — and a
parseable non-object body escapes the classifier as an uncaught
`AttributeError`. -/
theorem claim6_amended (endpoint : String) (r : HTTPResponse)
    (h400 : r.statusCode ≥ 400)
    (h1 : r.statusCode ≠ 401) (h2 : r.statusCode ≠ 404) (h3 : r.statusCode ≠ 429) :
    (r.text = "" →
      meshClassify endpoint r = .exc .agentMeshError ("API error: " ++ r.text)) ∧
    (∀ fields m, r.text ≠ "" → r.jsonBody = some (.obj fields) →
      lookupField fields "message" = some (.str m) →
      meshClassify endpoint r = .exc .agentMeshError ("API error: " ++ m)) ∧
    (∀ fields, r.text ≠ "" → r.jsonBody = some (.obj fields) →
      lookupField fields "message" = none →
      meshClassify endpoint r = .exc .agentMeshError ("API error: " ++ r.text)) ∧
    (r.text ≠ "" → r.jsonBody = none →
      meshClassify endpoint r =
        .exc .agentMeshError ("Request failed: " ++ r.jsonErrMsg)) ∧
    (∀ xs, r.text ≠ "" → r.jsonBody = some (.arr xs) →
      excClassOf (meshClassify endpoint r) = some .attributeError) := by
  refine ⟨?_, ?_, ?_, ?_, ?_⟩
  · intro ht
    simp [meshClassify, h1, h2, h3, h400, ht]
  · intro fields m ht hj hm
    simp [meshClassify, h1, h2, h3, h400, ht, hj, hm, pyStr]
  · intro fields ht hj hm
    simp [meshClassify, h1, h2, h3, h400, ht, hj, hm]
  · intro ht hj
    simp [meshClassify, h1, h2, h3, h400, ht, hj]
  · intro xs ht hj
    simp [meshClassify, h1, h2, h3, h400, ht, hj, excClassOf]

/-- Claim C6 witness: the amended claim at a concrete 400 response whose JSON
object body carries a `message` field. -/
theorem claim6_witness :
    (HTTPResponse.mk 400 "b" (some (.obj [("message", .str "boom")]))
        "Bad Request" "e").statusCode ≥ 400 ∧
    (HTTPResponse.mk 400 "b" (some (.obj [("message", .str "boom")]))
        "Bad Request" "e").statusCode ≠ 401 ∧
    (HTTPResponse.mk 400 "b" (some (.obj [("message", .str "boom")]))
        "Bad Request" "e").text ≠ "" ∧
    meshClassify "/agents"
        ⟨400, "b", some (.obj [("message", .str "boom")]), "Bad Request", "e"⟩ =
      .exc .agentMeshError ("API error: " ++ "boom") :=
  ⟨by decide, by decide, by decide,
   (claim6_amended "/agents"
      ⟨400, "b", some (.obj [("message", .str "boom")]), "Bad Request", "e"⟩
      (by decide) (by decide) (by decide) (by decide)).2.1
      [("message", .str "boom")] "boom" (by decide) rfl rfl⟩

/-- Claim C7 counterexample: two responses identical except for their statuses
(400 and 500) produce byte-for-byte identical error values from
`AgentMeshClient._request` — the error value records neither status, so the
caller cannot observe the triggering status from it. -/
theorem claim7_counterexample :
    meshClassify "/agents"
      ⟨400, "b", some (.obj [("message", .str "boom")]), "Bad Request", "e"⟩ =
    meshClassify "/agents"
      ⟨500, "b", some (.obj [("message", .str "boom")]), "Server Error", "e"⟩ ∧
    (400 : Nat) ≠ 500 := by
  exact ⟨rfl, by decide⟩

/-- Claim C7 (amended): the error class of `AgentMeshClient._request`
identifies statuses 401, 404 and 429 exactly, and on the remaining statuses
≥ 400 the Generic error preserves a server-provided JSON `message`; the
numeric status itself is not carried by any error value, and 401/429 errors
carry fixed messages that drop any server-provided one. -/
theorem claim7_amended (endpoint : String) (r : HTTPResponse)
    (h400 : r.statusCode ≥ 400) :
    (excClassOf (meshClassify endpoint r) = some .authenticationError ↔
      r.statusCode = 401) ∧
    (excClassOf (meshClassify endpoint r) = some .notFoundError ↔
      r.statusCode = 404) ∧
    (excClassOf (meshClassify endpoint r) = some .rateLimitError ↔
      r.statusCode = 429) ∧
    (∀ fields m, r.statusCode ≠ 401 → r.statusCode ≠ 404 → r.statusCode ≠ 429 →
      r.text ≠ "" → r.jsonBody = some (.obj fields) →
      lookupField fields "message" = some (.str m) →
      meshClassify endpoint r = .exc .agentMeshError ("API error: " ++ m)) := by
  by_cases h1 : r.statusCode = 401
  · refine ⟨?_, ?_, ?_, ?_⟩
    · simp [meshClassify, h1, excClassOf]
    · simp [meshClassify, h1, excClassOf]
    · simp [meshClassify, h1, excClassOf]
    · intro fields m hc1 hc2 hc3 ht hj hm
      exact absurd h1 hc1
  by_cases h2 : r.statusCode = 404
  · refine ⟨?_, ?_, ?_, ?_⟩
    · simp [meshClassify, h1, h2, excClassOf]
    · simp [meshClassify, h1, h2, excClassOf]
    · simp [meshClassify, h1, h2, excClassOf]
    · intro fields m hc1 hc2 hc3 ht hj hm
      exact absurd h2 hc2
  by_cases h3 : r.statusCode = 429
  · refine ⟨?_, ?_, ?_, ?_⟩
    · simp [meshClassify, h1, h2, h3, excClassOf]
    · simp [meshClassify, h1, h2, h3, excClassOf]
    · simp [meshClassify, h1, h2, h3, excClassOf]
    · intro fields m hc1 hc2 hc3 ht hj hm
      exact absurd h3 hc3
  · have hgen : ∀ c, excClassOf (meshClassify endpoint r) = some c →
        c = .agentMeshError ∨ c = .attributeError := by
      intro c hc
      simp only [meshClassify, h1, h2, h3, h400, if_false, if_true] at hc
      by_cases ht : r.text = ""
      · rw [if_pos ht] at hc
        simp [excClassOf] at hc
        exact Or.inl hc.symm
      · rw [if_neg ht] at hc
        cases hj : r.jsonBody with
        | none =>
          rw [hj] at hc
          simp [excClassOf] at hc
          exact Or.inl hc.symm
        | some j =>
          rw [hj] at hc
          cases j with
          | obj fields =>
            simp [excClassOf] at hc
            exact Or.inl hc.symm
          | null =>
            simp [excClassOf] at hc
            exact Or.inr hc.symm
          | bool b =>
            simp [excClassOf] at hc
            exact Or.inr hc.symm
          | num n =>
            simp [excClassOf] at hc
            exact Or.inr hc.symm
          | str s =>
            simp [excClassOf] at hc
            exact Or.inr hc.symm
          | arr xs =>
            simp [excClassOf] at hc
            exact Or.inr hc.symm
    refine ⟨?_, ?_, ?_, ?_⟩
    · constructor
      · intro hc
        rcases hgen _ hc with h | h <;> cases h
      · intro hc
        exact absurd hc h1
    · constructor
      · intro hc
        rcases hgen _ hc with h | h <;> cases h
      · intro hc
        exact absurd hc h2
    · constructor
      · intro hc
        rcases hgen _ hc with h | h <;> cases h
      · intro hc
        exact absurd hc h3
    · intro fields m hc1 hc2 hc3 ht hj hm
      simp [meshClassify, h1, h2, h3, h400, ht, hj, hm, pyStr]

/-- Claim C7 witness: the amended claim at a concrete 503 response. -/
theorem claim7_witness :
    (HTTPResponse.mk 503 "b" (some (.obj [("message", .str "down")]))
        "Service Unavailable" "e").statusCode ≥ 400 ∧
    ((excClassOf (meshClassify "/agents"
        ⟨503, "b", some (.obj [("message", .str "down")]),
          "Service Unavailable", "e"⟩) = some .authenticationError ↔
      (503 : Nat) = 401) ∧
    meshClassify "/agents"
        ⟨503, "b", some (.obj [("message", .str "down")]),
          "Service Unavailable", "e"⟩ =
      .exc .agentMeshError ("API error: " ++ "down")) := by
  have h := claim7_amended "/agents"
    ⟨503, "b", some (.obj [("message", .str "down")]), "Service Unavailable", "e"⟩
    (by decide)
  exact ⟨by decide, h.1,
    h.2.2.2 [("message", .str "down")] "down" (by decide) (by decide)
      (by decide) (by decide) rfl rfl⟩

set_option maxRecDepth 10000 in
/-- Claim C4 counterexample: the valid signature for payload `hello` and
secret `s` verifies, but replacing its final character `6` with the non-ASCII
`é` makes `hmac.compare_digest` raise `TypeError` instead of returning false —
so "changing any single character of a valid signature makes it return false"
fails as stated. -/
theorem claim4_counterexample :
    hmacSha256Hex (strEncode "s") (strEncode "hello") =
      "8a06a64224d83d1bf0a2140fab7d5b462cf3f450592c7963910ed331e9031056" ∧
    verify_webhook_signature (.str "hello")
      "8a06a64224d83d1bf0a2140fab7d5b462cf3f450592c7963910ed331e9031056" "s" =
      .ret true ∧
    verify_webhook_signature (.str "hello")
      "8a06a64224d83d1bf0a2140fab7d5b462cf3f450592c7963910ed331e903105é" "s" =
      .exc .typeError "comparing strings with non-ASCII characters is not supported" := by
  refine ⟨by decide, by decide, rfl⟩

/-- Claim C4 (amended): for string payloads, `verify_webhook_signature`
returns true exactly when the signature equals the lowercase hex HMAC-SHA256
digest of the payload bytes keyed by the secret bytes; consequently the valid
signature verifies, and a changed signature never returns true — it returns
false while still ASCII, and raises `TypeError` when the change introduces a
non-ASCII character. -/
theorem claim4_amended (payload signature secret : String) :
    (verify_webhook_signature (.str payload) signature secret = .ret true ↔
      signature = hmacSha256Hex (strEncode secret) (strEncode payload)) ∧
    verify_webhook_signature (.str payload)
      (hmacSha256Hex (strEncode secret) (strEncode payload)) secret = .ret true ∧
    (isAsciiStr signature = true →
      signature ≠ hmacSha256Hex (strEncode secret) (strEncode payload) →
      verify_webhook_signature (.str payload) signature secret = .ret false) := by
  have hexp : isAsciiStr (hmacSha256Hex (strEncode secret) (strEncode payload)) = true :=
    isAsciiStr_hexOfBytes _
  refine ⟨?_, ?_, ?_⟩
  · by_cases hs : isAsciiStr signature = true
    · simp only [verify_webhook_signature, hs, hexp, Bool.and_self, if_true,
        PyBoolResult.ret.injEq]
      exact compare_digest_fst_iff signature _
    · simp only [verify_webhook_signature, Bool.and_eq_true, hs, false_and,
        if_false]
      constructor
      · intro h
        cases h
      · intro h
        rw [h] at hs
        exact absurd hexp hs
  · have hself := (compare_digest_fst_iff
      (hmacSha256Hex (strEncode secret) (strEncode payload))
      (hmacSha256Hex (strEncode secret) (strEncode payload))).mpr rfl
    simp [verify_webhook_signature, hexp, hself]
  · intro hs hne
    have hfalse : (compare_digest signature
        (hmacSha256Hex (strEncode secret) (strEncode payload))).1 = false := by
      rcases Bool.eq_false_or_eq_true (compare_digest signature
          (hmacSha256Hex (strEncode secret) (strEncode payload))).1 with h | h
      · exact absurd ((compare_digest_fst_iff signature _).mp h) hne
      · exact h
    simp [verify_webhook_signature, hs, hexp, hfalse]

set_option maxRecDepth 10000 in
/-- Claim C4 witness: the amended claim's mismatch clause at the concrete
ASCII signature `00`, which is not the digest for payload `hello` and secret
`s`, so verification returns false. -/
theorem claim4_witness :
    isAsciiStr "00" = true ∧
    ("00" : String) ≠ hmacSha256Hex (strEncode "s") (strEncode "hello") ∧
    verify_webhook_signature (.str "hello") "00" "s" = .ret false :=
  ⟨by decide, by decide,
   (claim4_amended "hello" "00" "s").2.2 (by decide) (by decide)⟩

/-- Claim C8 counterexample: a payload supplied as `bytes` makes
`verify_webhook_signature` raise `AttributeError` (the code calls
`payload.encode()`, which bytes does not have) instead of returning a boolean
— refuting "payload supplied as bytes or string ... never raises". -/
theorem claim8_counterexample :
    verify_webhook_signature (.bytes [104, 101, 108, 108, 111]) "abc" "s" =
      .exc .attributeError "bytes object has no attribute encode" ∧
    verifyRaised
      (verify_webhook_signature (.bytes [104, 101, 108, 108, 111]) "abc" "s") =
      true :=
  ⟨rfl, rfl⟩

/-- Claim C8 (amended): for a payload supplied as a string and an all-ASCII
signature, `verify_webhook_signature` returns a boolean — false on mismatch —
and never raises; a payload supplied as bytes always raises `AttributeError`
(and a non-ASCII signature raises `TypeError`). -/
theorem claim8_amended (p signature secret : String) (bs : List Nat)
    (h : isAsciiStr signature = true) :
    (∃ b : Bool, verify_webhook_signature (.str p) signature secret = .ret b) ∧
    verifyRaised (verify_webhook_signature (.bytes bs) signature secret) = true := by
  have hexp : isAsciiStr (hmacSha256Hex (strEncode secret) (strEncode p)) = true :=
    isAsciiStr_hexOfBytes _
  constructor
  · refine ⟨(compare_digest signature
      (hmacSha256Hex (strEncode secret) (strEncode p))).1, ?_⟩
    simp [verify_webhook_signature, h, hexp]
  · rfl

/-- Claim C8 witness: the amended claim at a concrete string payload, ASCII
signature, and bytes payload. -/
theorem claim8_witness :
    isAsciiStr "abc" = true ∧
    ((∃ b : Bool, verify_webhook_signature (.str "x") "abc" "s" = .ret b) ∧
     verifyRaised (verify_webhook_signature (.bytes [1, 2]) "abc" "s") = true) :=
  ⟨by decide, claim8_amended "x" "abc" "s" [1, 2] (by decide)⟩

/-- Claim C9: the comparison inside `verify_webhook_signature` is
constant-time — its loop walks every zipped character pair without early exit,
so for a fixed payload and secret the iteration count of comparing any two
equal-length signatures against the expected digest is identical, whatever the
position of the first mismatch. -/
theorem claim9_constant_time (payload secret sig1 sig2 : String)
    (h : sig1.data.length = sig2.data.length) :
    (compare_digest sig1 (hmacSha256Hex (strEncode secret) (strEncode payload))).2 =
    (compare_digest sig2 (hmacSha256Hex (strEncode secret) (strEncode payload))).2 := by
  simp [compare_digest_steps, h]

/-- Claim C9 witness: two signatures mismatching at different positions take
the same number of comparison iterations. -/
theorem claim9_witness :
    ("aX".data.length = "Xa".data.length) ∧
    (compare_digest "aX" (hmacSha256Hex (strEncode "s") (strEncode "hello"))).2 =
    (compare_digest "Xa" (hmacSha256Hex (strEncode "s") (strEncode "hello"))).2 :=
  ⟨by decide, claim9_constant_time "hello" "s" "aX" "Xa" (by decide)⟩
